import Mathlib

/-!
Verification of the failover firewall service `iptables_linux.py` from the
`middleware` repository (TrueNAS SCALE high-availability firewall plugin).

The development shallowly embeds the four operations of the service:

* `generate_rules` builds the IPv4 and IPv6 iptables rule line lists from the
  `data` argument (keys `drop` and `vips`) and the admin ports fetched from the
  middleware configuration;
* `write_files` persists both line lists to the fixed file paths, modelled with
  an explicit write-outcome oracle;
* `restore_files` shells out to `iptables-restore` and `ip6tables-restore`,
  modelled with an explicit subprocess executor;
* `drop_all` and `accept_all` are the two exposed jobs combining the above.

Side effects (file writes, subprocess invocations) are made explicit as an
`Effect` trace returned alongside the result, and Python exceptions are
modelled with an `Except` error channel.
-/

/-- One entry of the VIP list: the source reads the keys `type` and
`address` of each element of `data["vips"]`. -/
structure Vip where
  type : String
  address : String
deriving DecidableEq

/-- The `data` dictionary passed to `generate_rules`: key `drop` selects
Block mode, key `vips` carries the address list. -/
structure GenInput where
  drop : Bool
  vips : List Vip
deriving DecidableEq

/-- The three admin ports `generate_rules` fetches via middleware calls:
`ssh.config` key `tcpport`, and `system.general.config` keys `ui_port`
and `ui_httpsport`. -/
structure AdminPorts where
  sshport : Nat
  ui_port : Nat
  ui_httpsport : Nat
deriving DecidableEq

/-- The accept line appended for one admin port (lines 47 to 49 and 52 to 54
of the source). -/
def acceptLine (port : Nat) : String :=
  "-A INPUT -p tcp -m tcp --dport " ++ (toString port ++ " -j ACCEPT\n")

/-- The drop line appended to the IPv4 ruleset for a VIP of type INET
(line 62 of the source). Note the source matches on the source-address
flag here. -/
def dropV4Line (address : String) : String :=
  "-A INPUT -s " ++ (address ++ "/32 -j DROP\n")

/-- The drop line appended to the IPv6 ruleset for a VIP of type INET6
(line 64 of the source), matching on the destination-address flag. -/
def dropV6Line (address : String) : String :=
  "-A INPUT -d " ++ (address ++ "/128 -j DROP\n")

/-- The for-loop over `data["vips"]` in `generate_rules` (lines 60 to 64):
INET entries append a drop line to the IPv4 list, INET6 entries to the
IPv6 list, any other type is skipped. -/
def vipLoop : List Vip → List String → List String → List String × List String
  | [], v4rules, v6rules => (v4rules, v6rules)
  | i :: rest, v4rules, v6rules =>
    if i.type == "INET" then
      vipLoop rest (v4rules ++ [dropV4Line i.address]) v6rules
    else if i.type == "INET6" then
      vipLoop rest v4rules (v6rules ++ [dropV6Line i.address])
    else
      vipLoop rest v4rules v6rules

/-- Embedding of `generate_rules` (source lines 17 to 70). Both rulesets
start with the table marker and the three inserted default-policy lines;
in Block mode the three admin accept lines are appended to both lists and
the VIP loop appends the drop lines; the commit marker is appended last. -/
def generate_rules (ports : AdminPorts) (data : GenInput) : List String × List String :=
  let v4rules := ["*filter\n"]
  let v6rules := ["*filter\n"]
  let v4rules := v4rules.insertIdx 1 ":INPUT ACCEPT [0:0]\n"
  let v4rules := v4rules.insertIdx 2 ":FORWARD ACCEPT [0:0]\n"
  let v4rules := v4rules.insertIdx 3 ":OUTPUT ACCEPT [0:0]\n"
  let v6rules := v6rules.insertIdx 1 ":INPUT ACCEPT [0:0]\n"
  let v6rules := v6rules.insertIdx 2 ":FORWARD ACCEPT [0:0]\n"
  let v6rules := v6rules.insertIdx 3 ":OUTPUT ACCEPT [0:0]\n"
  let step :=
    if data.drop then
      let v4rules := v4rules ++
        [acceptLine ports.sshport, acceptLine ports.ui_port, acceptLine ports.ui_httpsport]
      let v6rules := v6rules ++
        [acceptLine ports.sshport, acceptLine ports.ui_port, acceptLine ports.ui_httpsport]
      vipLoop data.vips v4rules v6rules
    else
      (v4rules, v6rules)
  (step.1 ++ ["COMMIT\n"], step.2 ++ ["COMMIT\n"])

/-- The common four-line head of every generated ruleset: table marker and
the three default-policy lines, in source order. -/
def rulesHeader : List String :=
  ["*filter\n", ":INPUT ACCEPT [0:0]\n", ":FORWARD ACCEPT [0:0]\n", ":OUTPUT ACCEPT [0:0]\n"]

/-- The three admin accept lines, in the order the source appends them. -/
def adminAccepts (ports : AdminPorts) : List String :=
  [acceptLine ports.sshport, acceptLine ports.ui_port, acceptLine ports.ui_httpsport]

/-- The drop lines contributed to the IPv4 ruleset: one line per INET entry
of the VIP list, in list order. -/
def v4dropLines (vips : List Vip) : List String :=
  (vips.filter (fun i => i.type == "INET")).map (fun i => dropV4Line i.address)

/-- The drop lines contributed to the IPv6 ruleset: one line per INET6 entry
of the VIP list, in list order. -/
def v6dropLines (vips : List Vip) : List String :=
  (vips.filter (fun i => i.type == "INET6")).map (fun i => dropV6Line i.address)

/-- Boolean test that one character list is a leading segment of another. -/
def listStarts : List Char → List Char → Bool
  | [], _ => true
  | _ :: _, [] => false
  | a :: as, b :: bs => a == b && listStarts as bs

/-- Boolean test that the string `s` starts with the string `pre`. -/
def hasPre (pre s : String) : Bool :=
  listStarts pre.data s.data

/-- A line is an accept rule iff it starts like the admin accept lines. -/
def isAcceptLine (s : String) : Bool :=
  hasPre "-A INPUT -p " s

/-- A line is a drop rule iff it starts like either family of emitted drop
lines (source-address match for IPv4, destination-address match for IPv6). -/
def isDropLine (s : String) : Bool :=
  hasPre "-A INPUT -s " s || hasPre "-A INPUT -d " s

/-- Admin accept lines come strictly before VIP drop lines: every position
holding an accept line precedes every position holding a drop line. -/
def acceptsBeforeDrops (l : List String) : Prop :=
  ∀ i, (hi : i < l.length) → ∀ j, (hj : j < l.length) →
    isAcceptLine (l.get ⟨i, hi⟩) = true → isDropLine (l.get ⟨j, hj⟩) = true → i < j

/-- The fixed IPv4 rules file path (source line 6). -/
def V4_FILE : String := "/data/v4-fw.rules"

/-- The fixed IPv6 rules file path (source line 7). -/
def V6_FILE : String := "/data/v6-fw.rules"

/-- Python exceptions that the embedded operations can surface: `CallError`
raised by the service itself, and `AttributeError` raised by an attribute
lookup on an object that lacks it. -/
inductive PyError where
  | callError (msg : String)
  | attributeError (msg : String)
deriving DecidableEq

/-- Outcome of one subprocess invocation: exit status plus captured output
byte streams, as returned by `communicate`. -/
structure ProcResult where
  returncode : Int
  stdout : List Nat
  stderr : List Nat
deriving DecidableEq

/-- One observable side effect of the service: writing a rules file, or
running an external command. -/
inductive Effect where
  | writeFile (path : String) (lines : List String)
  | runCmd (cmd : String)
deriving DecidableEq

/-- Test whether an action is a subprocess invocation. -/
def isRunCmd : Effect → Bool
  | Effect.runCmd _ => true
  | Effect.writeFile _ _ => false

/-- Test for a UTF-8 continuation byte. -/
def utf8Cont (b : Nat) : Bool := 0x80 ≤ b && b < 0xC0

/-- Fuel-indexed UTF-8 decoding with the `ignore` error handler: valid
sequences become characters, anything invalid (bad lead byte, bad
continuation byte, surrogate or out-of-range code point) is skipped
without failing. The fuel is only a structural-recursion device; it is
always instantiated with the length of the byte list. -/
def decodeUtf8IgnoreAux : Nat → List Nat → List Char
  | 0, _ => []
  | _, [] => []
  | fuel + 1, b :: rest =>
    if b < 0x80 then
      Char.ofNat b :: decodeUtf8IgnoreAux fuel rest
    else if 0xC2 ≤ b && b ≤ 0xDF then
      match rest with
      | c1 :: rest1 =>
        if utf8Cont c1 then
          Char.ofNat ((b - 0xC0) * 0x40 + (c1 - 0x80)) :: decodeUtf8IgnoreAux fuel rest1
        else decodeUtf8IgnoreAux fuel rest
      | [] => []
    else if 0xE0 ≤ b && b ≤ 0xEF then
      match rest with
      | c1 :: c2 :: rest2 =>
        if utf8Cont c1 && utf8Cont c2 then
          if 0xD800 ≤ (b - 0xE0) * 0x1000 + (c1 - 0x80) * 0x40 + (c2 - 0x80) &&
              (b - 0xE0) * 0x1000 + (c1 - 0x80) * 0x40 + (c2 - 0x80) ≤ 0xDFFF then
            decodeUtf8IgnoreAux fuel rest2
          else
            Char.ofNat ((b - 0xE0) * 0x1000 + (c1 - 0x80) * 0x40 + (c2 - 0x80)) ::
              decodeUtf8IgnoreAux fuel rest2
        else decodeUtf8IgnoreAux fuel rest
      | _ => decodeUtf8IgnoreAux fuel rest
    else if 0xF0 ≤ b && b ≤ 0xF4 then
      match rest with
      | c1 :: c2 :: c3 :: rest3 =>
        if utf8Cont c1 && utf8Cont c2 && utf8Cont c3 then
          if (b - 0xF0) * 0x40000 + (c1 - 0x80) * 0x1000 + (c2 - 0x80) * 0x40 + (c3 - 0x80)
              ≤ 0x10FFFF then
            Char.ofNat ((b - 0xF0) * 0x40000 + (c1 - 0x80) * 0x1000 + (c2 - 0x80) * 0x40
              + (c3 - 0x80)) :: decodeUtf8IgnoreAux fuel rest3
          else decodeUtf8IgnoreAux fuel rest3
        else decodeUtf8IgnoreAux fuel rest
      | _ => decodeUtf8IgnoreAux fuel rest
    else
      decodeUtf8IgnoreAux fuel rest

/-- Total model of `bytes.decode` with arguments `utf8` and `ignore`: never
fails, undecodable bytes are dropped. -/
def decodeUtf8Ignore (bs : List Nat) : String :=
  String.mk (decodeUtf8IgnoreAux bs.length bs)

/-- Embedding of `write_files` (source lines 72 to 87). The write-outcome
oracle `writeError` models the file system: it returns the OS error text
when opening or writing that path raises, and `none` on success. The first
component records the attempted writes in order; a failure on the IPv4 file
raises `CallError` before the IPv6 write is attempted. -/
def write_files (writeError : String → Option String) (v4rules v6rules : List String) :
    List Effect × Except PyError Unit :=
  match writeError V4_FILE with
  | some e =>
    ([Effect.writeFile V4_FILE v4rules],
     Except.error (PyError.callError ("Failed writing " ++ (V4_FILE ++ (" with error " ++ e)))))
  | none =>
    match writeError V6_FILE with
    | some e =>
      ([Effect.writeFile V4_FILE v4rules, Effect.writeFile V6_FILE v6rules],
       Except.error (PyError.callError ("Failed writing " ++ (V6_FILE ++ (" with error " ++ e)))))
    | none =>
      ([Effect.writeFile V4_FILE v4rules, Effect.writeFile V6_FILE v6rules], Except.ok ())

/-- Embedding of `restore_files` (source lines 89 to 103). The executor `run`
models `subprocess.Popen` plus `communicate` on a shell command line. The
IPv4 invocation comes first; a nonzero exit raises `CallError` with the
stderr bytes decoded permissively, and the IPv6 invocation is then never
reached. In the IPv6 failure branch the source calls the nonexistent bytes
attribute `deocde` (a typo for `decode`), so in Python the attribute lookup
itself raises `AttributeError` before any `CallError` can be built; the
embedding models that branch accordingly. The `v4rules` and `v6rules`
parameters are accepted, as in the source, but never used: the commands
read the persisted files. -/
def restore_files (run : String → ProcResult) (v4rules v6rules : List String) :
    List Effect × Except PyError Unit :=
  let cmd := "iptables-restore < " ++ V4_FILE
  let p1 := run cmd
  if p1.returncode ≠ 0 then
    ([Effect.runCmd cmd],
     Except.error (PyError.callError
       ("Failed restoring firewall rules: " ++ decodeUtf8Ignore p1.stderr)))
  else
    let cmd2 := "ip6tables-restore < " ++ V6_FILE
    let p2 := run cmd2
    if p2.returncode ≠ 0 then
      ([Effect.runCmd cmd, Effect.runCmd cmd2],
       Except.error (PyError.attributeError "bytes object has no attribute deocde"))
    else
      ([Effect.runCmd cmd, Effect.runCmd cmd2], Except.ok ())

/-- The collaborators the two top-level jobs consult: the licensing check
`failover.licensed`, the VIP discovery `interface.ip_in_use`, the admin port
configuration, the file-system write oracle and the subprocess executor. -/
structure Env where
  licensed : Bool
  ip_in_use : List Vip
  ports : AdminPorts
  writeError : String → Option String
  run : String → ProcResult

/-- Embedding of the `drop_all` job (source lines 105 to 136): licensing
short-circuit returning `false`, loud failure on an empty VIP list, then
generate, write and restore in sequence, each failure aborting the rest. -/
def drop_all (env : Env) : List Effect × Except PyError Bool :=
  if !env.licensed then
    ([], Except.ok false)
  else if env.ip_in_use = [] then
    ([], Except.error (PyError.callError "No VIP addresses detected on system"))
  else
    let rules := generate_rules env.ports { drop := true, vips := env.ip_in_use }
    let wr := write_files env.writeError rules.1 rules.2
    match wr.2 with
    | Except.error e => (wr.1, Except.error e)
    | Except.ok _ =>
      let rr := restore_files env.run rules.1 rules.2
      match rr.2 with
      | Except.error e => (wr.1 ++ rr.1, Except.error e)
      | Except.ok _ => (wr.1 ++ rr.1, Except.ok true)

/-- Embedding of the `accept_all` job (source lines 138 to 159): licensing
short-circuit returning `false`, then generate with `drop` false and an
empty VIP list, write and restore in sequence. -/
def accept_all (env : Env) : List Effect × Except PyError Bool :=
  if !env.licensed then
    ([], Except.ok false)
  else
    let rules := generate_rules env.ports { drop := false, vips := [] }
    let wr := write_files env.writeError rules.1 rules.2
    match wr.2 with
    | Except.error e => (wr.1, Except.error e)
    | Except.ok _ =>
      let rr := restore_files env.run rules.1 rules.2
      match rr.2 with
      | Except.error e => (wr.1 ++ rr.1, Except.error e)
      | Except.ok _ => (wr.1 ++ rr.1, Except.ok true)

/-- An executor on which every command exits with status 1 and empty output. -/
def exV4Fails : String → ProcResult :=
  fun _ => ⟨1, [], []⟩

/-- An executor returning exit status `rc4` with stderr `err4` for the IPv4
restore command and `rc6` with stderr `err6` for everything else. -/
def exRestore (rc4 rc6 : Int) (err4 err6 : List Nat) : String → ProcResult :=
  fun cmd =>
    if cmd = "iptables-restore < " ++ V4_FILE then ⟨rc4, [], err4⟩ else ⟨rc6, [], err6⟩

/-- A licensed environment with one IPv4 VIP in which writing the IPv6 rules
file fails while everything else succeeds (Scenario C of the spec). -/
def envWriteFailV6 : Env :=
  ⟨true, [⟨"INET", "10.0.0.5"⟩], ⟨22, 80, 443⟩,
   fun path => if path = V6_FILE then some "No space left on device" else none,
   fun _ => ⟨0, [], []⟩⟩

/-- An environment in which the licensing check reports false. -/
def envUnlicensed : Env :=
  ⟨false, [⟨"INET", "10.0.0.5"⟩], ⟨22, 80, 443⟩, fun _ => none, fun _ => ⟨0, [], []⟩⟩

theorem listStarts_append : ∀ (p f t : List Char), p.length ≤ f.length →
    listStarts p (f ++ t) = listStarts p f
  | [], _, _, _ => rfl
  | _ :: _, [], _, h => by simp at h
  | a :: as, b :: bs, t, h => by
    show (a == b && listStarts as (bs ++ t)) = (a == b && listStarts as bs)
    rw [listStarts_append as bs t (by simpa using h)]

theorem hasPre_append (pre f t : String) (h : pre.length ≤ f.length) :
    hasPre pre (f ++ t) = hasPre pre f := by
  unfold hasPre
  rw [String.data_append]
  exact listStarts_append _ _ _ h

theorem isAcceptLine_acceptLine (port : Nat) : isAcceptLine (acceptLine port) = true := by
  unfold isAcceptLine acceptLine
  rw [hasPre_append _ _ _ (by decide)]
  decide

theorem isDropLine_acceptLine (port : Nat) : isDropLine (acceptLine port) = false := by
  unfold isDropLine acceptLine
  rw [hasPre_append _ _ _ (by decide), hasPre_append _ _ _ (by decide)]
  decide

theorem isAcceptLine_dropV4Line (a : String) : isAcceptLine (dropV4Line a) = false := by
  unfold isAcceptLine dropV4Line
  rw [hasPre_append _ _ _ (by decide)]
  decide

theorem isAcceptLine_dropV6Line (a : String) : isAcceptLine (dropV6Line a) = false := by
  unfold isAcceptLine dropV6Line
  rw [hasPre_append _ _ _ (by decide)]
  decide

theorem isDropLine_dropV4Line (a : String) : isDropLine (dropV4Line a) = true := by
  unfold isDropLine dropV4Line
  rw [hasPre_append _ _ _ (by decide), hasPre_append _ _ _ (by decide)]
  decide

theorem isDropLine_dropV6Line (a : String) : isDropLine (dropV6Line a) = true := by
  unfold isDropLine dropV6Line
  rw [hasPre_append _ _ _ (by decide), hasPre_append _ _ _ (by decide)]
  decide

theorem vipLoop_eq (vips : List Vip) (v4 v6 : List String) :
    vipLoop vips v4 v6 = (v4 ++ v4dropLines vips, v6 ++ v6dropLines vips) := by
  induction vips generalizing v4 v6 with
  | nil => simp [vipLoop, v4dropLines, v6dropLines]
  | cons i rest ih =>
    by_cases h4 : i.type = "INET"
    · simp [vipLoop, v4dropLines, v6dropLines, h4, ih]
    · by_cases h6 : i.type = "INET6"
      · simp [vipLoop, v4dropLines, v6dropLines, h4, h6, ih]
      · simp [vipLoop, v4dropLines, v6dropLines, h4, h6, ih]

theorem generate_rules_drop_eq (ports : AdminPorts) (vips : List Vip) :
    generate_rules ports ⟨true, vips⟩ =
      (rulesHeader ++ adminAccepts ports ++ v4dropLines vips ++ ["COMMIT\n"],
       rulesHeader ++ adminAccepts ports ++ v6dropLines vips ++ ["COMMIT\n"]) := by
  simp [generate_rules, vipLoop_eq, rulesHeader, adminAccepts, List.insertIdx]

theorem generate_rules_allow_eq (ports : AdminPorts) (vips : List Vip) :
    generate_rules ports ⟨false, vips⟩ =
      (rulesHeader ++ ["COMMIT\n"], rulesHeader ++ ["COMMIT\n"]) := rfl

theorem v4dropLines_filter_accept (vips : List Vip) :
    (v4dropLines vips).filter isAcceptLine = [] := by
  unfold v4dropLines
  rw [List.filter_map]
  have h : (vips.filter (fun i => i.type == "INET")).filter
      (isAcceptLine ∘ fun i => dropV4Line i.address) = [] := by
    apply List.filter_eq_nil_iff.mpr
    intro i _
    simp [isAcceptLine_dropV4Line]
  rw [h]
  rfl

theorem v6dropLines_filter_accept (vips : List Vip) :
    (v6dropLines vips).filter isAcceptLine = [] := by
  unfold v6dropLines
  rw [List.filter_map]
  have h : (vips.filter (fun i => i.type == "INET6")).filter
      (isAcceptLine ∘ fun i => dropV6Line i.address) = [] := by
    apply List.filter_eq_nil_iff.mpr
    intro i _
    simp [isAcceptLine_dropV6Line]
  rw [h]
  rfl

theorem v4dropLines_filter_drop (vips : List Vip) :
    (v4dropLines vips).filter isDropLine = v4dropLines vips := by
  apply List.filter_eq_self.mpr
  intro x hx
  rcases List.mem_map.mp hx with ⟨i, _, rfl⟩
  exact isDropLine_dropV4Line _

theorem v6dropLines_filter_drop (vips : List Vip) :
    (v6dropLines vips).filter isDropLine = v6dropLines vips := by
  apply List.filter_eq_self.mpr
  intro x hx
  rcases List.mem_map.mp hx with ⟨i, _, rfl⟩
  exact isDropLine_dropV6Line _

theorem adminAccepts_filter_accept (ports : AdminPorts) :
    (adminAccepts ports).filter isAcceptLine = adminAccepts ports := by
  apply List.filter_eq_self.mpr
  intro x hx
  simp only [adminAccepts, List.mem_cons, List.not_mem_nil, or_false] at hx
  rcases hx with rfl | rfl | rfl <;> exact isAcceptLine_acceptLine _

theorem adminAccepts_filter_drop (ports : AdminPorts) :
    (adminAccepts ports).filter isDropLine = [] := by
  apply List.filter_eq_nil_iff.mpr
  intro x hx
  simp only [adminAccepts, List.mem_cons, List.not_mem_nil, or_false] at hx
  rcases hx with rfl | rfl | rfl <;> simp [isDropLine_acceptLine]

theorem acceptsBeforeDrops_of_split (a b : List String)
    (ha : ∀ x ∈ a, isDropLine x = false) (hb : ∀ x ∈ b, isAcceptLine x = false) :
    acceptsBeforeDrops (a ++ b) := by
  intro i hi j hj hacc hdrop
  have hlen : (a ++ b).length = a.length + b.length := List.length_append a b
  have hi2 : i < a.length := by
    by_contra hc
    push_neg at hc
    have hib : i - a.length < b.length := by omega
    have : (a ++ b).get ⟨i, hi⟩ = b[i - a.length] := List.getElem_append_right hc
    rw [List.get_eq_getElem] at hacc
    rw [List.get_eq_getElem] at this
    rw [this] at hacc
    have := hb _ (List.getElem_mem hib)
    simp [this] at hacc
  have hj2 : a.length ≤ j := by
    by_contra hc
    push_neg at hc
    have : (a ++ b).get ⟨j, hj⟩ = a[j] := List.getElem_append_left hc
    rw [List.get_eq_getElem] at hdrop
    rw [List.get_eq_getElem] at this
    rw [this] at hdrop
    have := ha _ (List.getElem_mem hc)
    simp [this] at hdrop
  omega

theorem header_no_accept_no_drop :
    rulesHeader.filter isAcceptLine = [] ∧ rulesHeader.filter isDropLine = [] ∧
    isAcceptLine "COMMIT\n" = false ∧ isDropLine "COMMIT\n" = false := by
  decide

/-- C1: for every Block-mode input, each of the three admin ports produces
exactly one accept line in the IPv4 ruleset and exactly one in the IPv6
ruleset (the accept lines of each ruleset are exactly the three admin accept
lines, in order), and in each ruleset every accept line appears before any
drop line. -/
theorem generate_rules_block_admin_accepts (ports : AdminPorts) (data : GenInput)
    (h : data.drop = true) :
    ((generate_rules ports data).1
        = rulesHeader ++ adminAccepts ports ++ v4dropLines data.vips ++ ["COMMIT\n"]
      ∧ (generate_rules ports data).1.filter isAcceptLine = adminAccepts ports
      ∧ acceptsBeforeDrops (generate_rules ports data).1)
    ∧ ((generate_rules ports data).2
        = rulesHeader ++ adminAccepts ports ++ v6dropLines data.vips ++ ["COMMIT\n"]
      ∧ (generate_rules ports data).2.filter isAcceptLine = adminAccepts ports
      ∧ acceptsBeforeDrops (generate_rules ports data).2) := by
  obtain ⟨d, vips⟩ := data
  cases h
  rw [generate_rules_drop_eq]
  have hsplit4 : rulesHeader ++ adminAccepts ports ++ v4dropLines vips ++ ["COMMIT\n"]
      = (rulesHeader ++ adminAccepts ports) ++ (v4dropLines vips ++ ["COMMIT\n"]) := by
    simp [List.append_assoc]
  have hsplit6 : rulesHeader ++ adminAccepts ports ++ v6dropLines vips ++ ["COMMIT\n"]
      = (rulesHeader ++ adminAccepts ports) ++ (v6dropLines vips ++ ["COMMIT\n"]) := by
    simp [List.append_assoc]
  have hdropfree : ∀ x ∈ rulesHeader ++ adminAccepts ports, isDropLine x = false := by
    intro x hx
    rcases List.mem_append.mp hx with hx | hx
    · have := List.filter_eq_nil_iff.mp header_no_accept_no_drop.2.1
      simpa using this x hx
    · have := List.filter_eq_nil_iff.mp (adminAccepts_filter_drop ports)
      simpa using this x hx
  refine ⟨⟨rfl, ?_, ?_⟩, rfl, ?_, ?_⟩
  · simp only [List.filter_append, adminAccepts_filter_accept,
      header_no_accept_no_drop.1, v4dropLines_filter_accept]
    simp [header_no_accept_no_drop.2.2.1]
  · rw [hsplit4]
    apply acceptsBeforeDrops_of_split _ _ hdropfree
    intro x hx
    rcases List.mem_append.mp hx with hx | hx
    · have := List.filter_eq_nil_iff.mp (v4dropLines_filter_accept vips)
      simpa using this x hx
    · simp only [List.mem_singleton] at hx
      subst hx
      decide
  · simp only [List.filter_append, adminAccepts_filter_accept,
      header_no_accept_no_drop.1, v6dropLines_filter_accept]
    simp [header_no_accept_no_drop.2.2.1]
  · rw [hsplit6]
    apply acceptsBeforeDrops_of_split _ _ hdropfree
    intro x hx
    rcases List.mem_append.mp hx with hx | hx
    · have := List.filter_eq_nil_iff.mp (v6dropLines_filter_accept vips)
      simpa using this x hx
    · simp only [List.mem_singleton] at hx
      subst hx
      decide

/-- C1 witness: the Block-mode statement instantiated at admin ports 22, 80,
443 and one VIP of each family. -/
theorem generate_rules_block_admin_accepts_witness :
    ((generate_rules ⟨22, 80, 443⟩ ⟨true, [⟨"INET", "10.0.0.5"⟩, ⟨"INET6", "fe80::1"⟩]⟩).1
        = rulesHeader ++ adminAccepts ⟨22, 80, 443⟩
            ++ v4dropLines [⟨"INET", "10.0.0.5"⟩, ⟨"INET6", "fe80::1"⟩] ++ ["COMMIT\n"]
      ∧ (generate_rules ⟨22, 80, 443⟩
            ⟨true, [⟨"INET", "10.0.0.5"⟩, ⟨"INET6", "fe80::1"⟩]⟩).1.filter isAcceptLine
          = adminAccepts ⟨22, 80, 443⟩
      ∧ acceptsBeforeDrops
          (generate_rules ⟨22, 80, 443⟩ ⟨true, [⟨"INET", "10.0.0.5"⟩, ⟨"INET6", "fe80::1"⟩]⟩).1)
    ∧ ((generate_rules ⟨22, 80, 443⟩ ⟨true, [⟨"INET", "10.0.0.5"⟩, ⟨"INET6", "fe80::1"⟩]⟩).2
        = rulesHeader ++ adminAccepts ⟨22, 80, 443⟩
            ++ v6dropLines [⟨"INET", "10.0.0.5"⟩, ⟨"INET6", "fe80::1"⟩] ++ ["COMMIT\n"]
      ∧ (generate_rules ⟨22, 80, 443⟩
            ⟨true, [⟨"INET", "10.0.0.5"⟩, ⟨"INET6", "fe80::1"⟩]⟩).2.filter isAcceptLine
          = adminAccepts ⟨22, 80, 443⟩
      ∧ acceptsBeforeDrops
          (generate_rules ⟨22, 80, 443⟩ ⟨true, [⟨"INET", "10.0.0.5"⟩, ⟨"INET6", "fe80::1"⟩]⟩).2) :=
  generate_rules_block_admin_accepts ⟨22, 80, 443⟩
    ⟨true, [⟨"INET", "10.0.0.5"⟩, ⟨"INET6", "fe80::1"⟩]⟩ rfl

example :
    generate_rules ⟨22, 80, 443⟩ ⟨true, [⟨"INET", "10.0.0.5"⟩]⟩ =
      (["*filter\n", ":INPUT ACCEPT [0:0]\n", ":FORWARD ACCEPT [0:0]\n", ":OUTPUT ACCEPT [0:0]\n",
        "-A INPUT -p tcp -m tcp --dport 22 -j ACCEPT\n",
        "-A INPUT -p tcp -m tcp --dport 80 -j ACCEPT\n",
        "-A INPUT -p tcp -m tcp --dport 443 -j ACCEPT\n",
        "-A INPUT -s 10.0.0.5/32 -j DROP\n",
        "COMMIT\n"],
       ["*filter\n", ":INPUT ACCEPT [0:0]\n", ":FORWARD ACCEPT [0:0]\n", ":OUTPUT ACCEPT [0:0]\n",
        "-A INPUT -p tcp -m tcp --dport 22 -j ACCEPT\n",
        "-A INPUT -p tcp -m tcp --dport 80 -j ACCEPT\n",
        "-A INPUT -p tcp -m tcp --dport 443 -j ACCEPT\n",
        "COMMIT\n"]) := by
  decide

example : generate_rules ⟨22, 80, 443⟩ ⟨false, [⟨"INET", "10.0.0.5"⟩]⟩ =
    (rulesHeader ++ ["COMMIT\n"], rulesHeader ++ ["COMMIT\n"]) := by
  decide

theorem filter_keep_v4 (vips : List Vip) :
    (vips.filter (fun i => i.type == "INET" || i.type == "INET6")).filter
        (fun i => i.type == "INET")
      = vips.filter (fun i => i.type == "INET") := by
  induction vips with
  | nil => rfl
  | cons i rest ih =>
    by_cases h4 : i.type = "INET"
    · simp [List.filter_cons, h4, ih]
    · by_cases h6 : i.type = "INET6"
      · simp [List.filter_cons, h4, h6, ih]
      · simp [List.filter_cons, h4, h6, ih]

theorem filter_keep_v6 (vips : List Vip) :
    (vips.filter (fun i => i.type == "INET" || i.type == "INET6")).filter
        (fun i => i.type == "INET6")
      = vips.filter (fun i => i.type == "INET6") := by
  induction vips with
  | nil => rfl
  | cons i rest ih =>
    by_cases h4 : i.type = "INET"
    · simp [List.filter_cons, h4, ih]
    · by_cases h6 : i.type = "INET6"
      · simp [List.filter_cons, h4, h6, ih]
      · simp [List.filter_cons, h4, h6, ih]

/-- C2: for every Block-mode input, each VIP produces exactly one drop line,
appended only to the ruleset matching its family tag (the drop lines of the
IPv4 ruleset are exactly one host-scoped /32 line per INET entry and those
of the IPv6 ruleset exactly one host-scoped /128 line per INET6 entry, in
list order), and entries whose family tag is neither INET nor INET6
contribute nothing to either ruleset: removing them leaves the output
unchanged, and no error arises since generation is total. -/
theorem generate_rules_block_vip_drops (ports : AdminPorts) (data : GenInput)
    (h : data.drop = true) :
    ((generate_rules ports data).1.filter isDropLine = v4dropLines data.vips
      ∧ (generate_rules ports data).2.filter isDropLine = v6dropLines data.vips)
    ∧ generate_rules ports
        ⟨data.drop, data.vips.filter (fun i => i.type == "INET" || i.type == "INET6")⟩
      = generate_rules ports data := by
  obtain ⟨d, vips⟩ := data
  cases h
  refine ⟨⟨?_, ?_⟩, ?_⟩
  · rw [generate_rules_drop_eq]
    simp only [List.filter_append, adminAccepts_filter_drop, v4dropLines_filter_drop,
      header_no_accept_no_drop.2.1]
    simp [header_no_accept_no_drop.2.2.2]
  · rw [generate_rules_drop_eq]
    simp only [List.filter_append, adminAccepts_filter_drop, v6dropLines_filter_drop,
      header_no_accept_no_drop.2.1]
    simp [header_no_accept_no_drop.2.2.2]
  · rw [generate_rules_drop_eq, generate_rules_drop_eq]
    unfold v4dropLines v6dropLines
    rw [filter_keep_v4, filter_keep_v6]

/-- C2 witness: the Block-mode drop statement instantiated at one VIP of each
family plus one entry of unrecognized family tag. -/
theorem generate_rules_block_vip_drops_witness :
    ((generate_rules ⟨22, 80, 443⟩
          ⟨true, [⟨"INET", "10.0.0.5"⟩, ⟨"INET6", "fe80::1"⟩, ⟨"LINK", "lo"⟩]⟩).1.filter
            isDropLine
        = v4dropLines [⟨"INET", "10.0.0.5"⟩, ⟨"INET6", "fe80::1"⟩, ⟨"LINK", "lo"⟩]
      ∧ (generate_rules ⟨22, 80, 443⟩
          ⟨true, [⟨"INET", "10.0.0.5"⟩, ⟨"INET6", "fe80::1"⟩, ⟨"LINK", "lo"⟩]⟩).2.filter
            isDropLine
        = v6dropLines [⟨"INET", "10.0.0.5"⟩, ⟨"INET6", "fe80::1"⟩, ⟨"LINK", "lo"⟩])
    ∧ generate_rules ⟨22, 80, 443⟩
        ⟨true, ([⟨"INET", "10.0.0.5"⟩, ⟨"INET6", "fe80::1"⟩, ⟨"LINK", "lo"⟩].filter
          (fun i => i.type == "INET" || i.type == "INET6"))⟩
      = generate_rules ⟨22, 80, 443⟩
          ⟨true, [⟨"INET", "10.0.0.5"⟩, ⟨"INET6", "fe80::1"⟩, ⟨"LINK", "lo"⟩]⟩ :=
  generate_rules_block_vip_drops ⟨22, 80, 443⟩
    ⟨true, [⟨"INET", "10.0.0.5"⟩, ⟨"INET6", "fe80::1"⟩, ⟨"LINK", "lo"⟩]⟩ rfl

/-- C3: for every AllowAll-mode input, whatever the VIP list holds, each
family ruleset is exactly the table marker, the three default-policy lines
and the commit marker: five lines, no accept rule and no drop rule. -/
theorem generate_rules_allowall (ports : AdminPorts) (data : GenInput)
    (h : data.drop = false) :
    generate_rules ports data = (rulesHeader ++ ["COMMIT\n"], rulesHeader ++ ["COMMIT\n"])
    ∧ ((generate_rules ports data).1.length = 5
      ∧ (generate_rules ports data).1.filter isAcceptLine = []
      ∧ (generate_rules ports data).1.filter isDropLine = [])
    ∧ ((generate_rules ports data).2.length = 5
      ∧ (generate_rules ports data).2.filter isAcceptLine = []
      ∧ (generate_rules ports data).2.filter isDropLine = []) := by
  obtain ⟨d, vips⟩ := data
  cases h
  rw [generate_rules_allow_eq]
  exact ⟨rfl, by decide, by decide⟩

/-- C3 witness: the AllowAll statement instantiated at a nonempty VIP list,
which the mode ignores. -/
theorem generate_rules_allowall_witness :
    generate_rules ⟨22, 80, 443⟩ ⟨false, [⟨"INET", "10.0.0.5"⟩]⟩
        = (rulesHeader ++ ["COMMIT\n"], rulesHeader ++ ["COMMIT\n"])
    ∧ ((generate_rules ⟨22, 80, 443⟩ ⟨false, [⟨"INET", "10.0.0.5"⟩]⟩).1.length = 5
      ∧ (generate_rules ⟨22, 80, 443⟩ ⟨false, [⟨"INET", "10.0.0.5"⟩]⟩).1.filter isAcceptLine = []
      ∧ (generate_rules ⟨22, 80, 443⟩ ⟨false, [⟨"INET", "10.0.0.5"⟩]⟩).1.filter isDropLine = [])
    ∧ ((generate_rules ⟨22, 80, 443⟩ ⟨false, [⟨"INET", "10.0.0.5"⟩]⟩).2.length = 5
      ∧ (generate_rules ⟨22, 80, 443⟩ ⟨false, [⟨"INET", "10.0.0.5"⟩]⟩).2.filter isAcceptLine = []
      ∧ (generate_rules ⟨22, 80, 443⟩ ⟨false, [⟨"INET", "10.0.0.5"⟩]⟩).2.filter isDropLine = []) :=
  generate_rules_allowall ⟨22, 80, 443⟩ ⟨false, [⟨"INET", "10.0.0.5"⟩]⟩ rfl

/-- C9: for every input, both rulesets start with the table marker, carry the
three default-policy lines at positions 1 to 3 (INPUT, FORWARD, OUTPUT in
that order, shown by the four-line head being exactly `rulesHeader`), and
end with the commit marker. -/
theorem generate_rules_framing (ports : AdminPorts) (data : GenInput) :
    ((generate_rules ports data).1.head? = some "*filter\n"
      ∧ (generate_rules ports data).1.take 4 = rulesHeader
      ∧ (generate_rules ports data).1.getLast? = some "COMMIT\n")
    ∧ ((generate_rules ports data).2.head? = some "*filter\n"
      ∧ (generate_rules ports data).2.take 4 = rulesHeader
      ∧ (generate_rules ports data).2.getLast? = some "COMMIT\n") := by
  obtain ⟨d, vips⟩ := data
  cases d
  · rw [generate_rules_allow_eq]
    exact ⟨⟨rfl, rfl, by decide⟩, rfl, rfl, by decide⟩
  · rw [generate_rules_drop_eq]
    exact ⟨⟨rfl, rfl, List.getLast?_concat _⟩, rfl, rfl, List.getLast?_concat _⟩

/-- C4 counterexample: on an executor where the IPv4 restore invocation exits
with status 1, the IPv6 restore command is never attempted, so the two
invocations are not independent in the claimed direction. -/
theorem restore_files_v4_failure_skips_v6 :
    Effect.runCmd ("ip6tables-restore < " ++ V6_FILE) ∉ (restore_files exV4Fails [] []).1 := by
  decide

/-- C4 amended: the IPv4 restore invocation is always attempted; the IPv6
restore invocation is attempted exactly when the IPv4 invocation exits with
status zero, so an IPv6 failure cannot suppress the IPv4 attempt (it runs
first) but an IPv4 failure does suppress the IPv6 attempt. -/
theorem restore_files_trace (run : String → ProcResult) (v4rules v6rules : List String) :
    Effect.runCmd ("iptables-restore < " ++ V4_FILE) ∈ (restore_files run v4rules v6rules).1
    ∧ (restore_files run v4rules v6rules).1 =
        (if (run ("iptables-restore < " ++ V4_FILE)).returncode ≠ 0 then
          [Effect.runCmd ("iptables-restore < " ++ V4_FILE)]
        else
          [Effect.runCmd ("iptables-restore < " ++ V4_FILE),
           Effect.runCmd ("ip6tables-restore < " ++ V6_FILE)]) := by
  by_cases h : (run ("iptables-restore < " ++ V4_FILE)).returncode = 0
  · by_cases h2 : (run ("ip6tables-restore < " ++ V6_FILE)).returncode = 0 <;>
      simp [restore_files, h, h2]
  · simp [restore_files, h]

/-- C5 evaluation: the IPv4 error path raises a CallError carrying the stderr
bytes decoded permissively (the undecodable byte 0xFF is dropped, not fatal),
while the IPv6 error path, because of the `deocde` attribute typo in the
source, raises an AttributeError instead of a CallError with decoded text. -/
theorem restore_files_error_paths :
    (restore_files (exRestore 2 0 [0x62, 0x61, 0xFF, 0x64] []) [] []).2 =
        Except.error (PyError.callError "Failed restoring firewall rules: bad")
    ∧ (restore_files (exRestore 0 2 [] [0x62, 0x61, 0x64]) [] []).2 =
        Except.error (PyError.attributeError "bytes object has no attribute deocde") :=
  ⟨rfl, rfl⟩

/-- C6 evaluation: in Block mode the IPv4 drop line emitted for a VIP starts
with the source-address match flag `-s`, not the destination-address match
flag `-d`, while the IPv6 drop line does use `-d`; so the IPv4 rule blocks
traffic originating from the VIP, not traffic destined to it. -/
theorem v4_drop_matches_source_not_destination :
    ((generate_rules ⟨22, 80, 443⟩ ⟨true, [⟨"INET", "10.0.0.5"⟩]⟩).1.filter isDropLine
        = ["-A INPUT -s 10.0.0.5/32 -j DROP\n"]
      ∧ hasPre "-A INPUT -d " "-A INPUT -s 10.0.0.5/32 -j DROP\n" = false
      ∧ hasPre "-A INPUT -s " "-A INPUT -s 10.0.0.5/32 -j DROP\n" = true)
    ∧ ((generate_rules ⟨22, 80, 443⟩ ⟨true, [⟨"INET6", "fe80::1"⟩]⟩).2.filter isDropLine
        = ["-A INPUT -d fe80::1/128 -j DROP\n"]
      ∧ hasPre "-A INPUT -d " "-A INPUT -d fe80::1/128 -j DROP\n" = true) := by
  decide

/-- C7: in a licensed environment with VIPs present, a write failure on
either rules file (including the IPv6 one) makes both jobs raise, and no
restore subprocess is invoked for either family. -/
theorem write_failure_blocks_activation (env : Env)
    (hl : env.licensed = true) (hv : env.ip_in_use ≠ [])
    (hw : env.writeError V4_FILE ≠ none ∨ env.writeError V6_FILE ≠ none) :
    ((∃ e, (drop_all env).2 = Except.error e) ∧ (drop_all env).1.filter isRunCmd = [])
    ∧ ((∃ e, (accept_all env).2 = Except.error e)
      ∧ (accept_all env).1.filter isRunCmd = []) := by
  cases h4 : env.writeError V4_FILE with
  | some e =>
    simp [drop_all, accept_all, write_files, hl, hv, h4, isRunCmd]
  | none =>
    cases h6 : env.writeError V6_FILE with
    | some e =>
      simp [drop_all, accept_all, write_files, hl, hv, h4, h6, isRunCmd]
    | none =>
      rcases hw with hw | hw <;> simp [h4, h6] at hw

/-- C7 witness: Scenario C, a licensed environment where only the IPv6 file
write fails. -/
theorem write_failure_blocks_activation_witness :
    ((∃ e, (drop_all envWriteFailV6).2 = Except.error e)
      ∧ (drop_all envWriteFailV6).1.filter isRunCmd = [])
    ∧ ((∃ e, (accept_all envWriteFailV6).2 = Except.error e)
      ∧ (accept_all envWriteFailV6).1.filter isRunCmd = []) :=
  write_failure_blocks_activation envWriteFailV6 rfl (by decide) (Or.inr (by decide))

/-- C8: when the licensing check is false, `drop_all` returns `false` with no
effect and no error, whatever the VIP list; when licensed and the discovered
VIP list is empty, it raises the CallError about missing VIPs, again with no
write and no subprocess invocation. -/
theorem drop_all_preconditions (env : Env)
    (h : env.licensed = false ∨ env.ip_in_use = []) :
    drop_all env =
      ([], if env.licensed
        then Except.error (PyError.callError "No VIP addresses detected on system")
        else Except.ok false) := by
  rcases h with h | h
  · simp [drop_all, h]
  · cases hl : env.licensed
    · simp [drop_all, hl]
    · simp [drop_all, h, hl]

/-- C8 witness: the precondition statement instantiated at an unlicensed
environment that does have VIPs. -/
theorem drop_all_preconditions_witness :
    drop_all envUnlicensed =
      ([], if envUnlicensed.licensed
        then Except.error (PyError.callError "No VIP addresses detected on system")
        else Except.ok false) :=
  drop_all_preconditions envUnlicensed (Or.inl rfl)

/-- C10: `restore_files` never reads its two ruleset arguments; with the same
executor (that is, the same persisted files and kernel state) any two
argument vectors give identical traces and results. -/
theorem restore_files_ignores_rule_args (run : String → ProcResult)
    (v4a v6a v4b v6b : List String) :
    restore_files run v4a v6a = restore_files run v4b v6b := rfl
